import Mathlib

/-!
Verification of the ironic-aio health-check core.

Shallow embedding of the Python sources:
  - `src/api/config.py`           → `Settings`
  - `src/api/schemas/health.py`   → `HealthStatus`, `healthStatusLiterals`
  - `src/api/clients/ironic.py`   → `IronicClient.get_connection`,
                                    `IronicClient.check_connectivity`,
                                    `IronicClient.list_nodes`, `IronicClient.get_node`
  - `src/api/services/health.py`  → `HealthService.check_health`
  - `src/api/routers/health.py`   → `get_health`
  - `src/api/mcp_tools/health.py` → `mcp_check_health`, `model_dump`

Python exceptions are modelled with `Except PyExc`; the outcome of the
OpenStack SDK connection constructor (an external effect) is an explicit
input `ConnOutcome`, and the wall clock read by `datetime.now(timezone.utc)`
is an explicit input `tick : Nat`.
-/

namespace IronicAio

/-- Python `datetime.tzinfo` values that occur in the program: only
`timezone.utc` is ever used (`datetime.now(timezone.utc)` in
`src/api/services/health.py`). -/
inductive Tzinfo where
  | utc
  deriving DecidableEq, Repr

/-- A Python `datetime`: a point in time (`tick`, abstract clock units)
plus an optional timezone. `tzinfo = none` means a naive datetime;
`some .utc` means timezone-aware UTC. -/
structure Datetime where
  tick : Nat
  tzinfo : Option Tzinfo
  deriving DecidableEq, Repr

/-- Model of `datetime.now(timezone.utc)`: reads the wall clock (the explicit
`tick` input) and attaches the UTC timezone. -/
def datetimeNowUtc (tick : Nat) : Datetime :=
  { tick := tick, tzinfo := some Tzinfo.utc }

/-- The `Settings` model from `src/api/config.py`, with the documented defaults. -/
structure Settings where
  app_name : String := "ironic-aio-api"
  app_version : String := "0.1.0"
  debug : Bool := false
  ironic_api_url : String := "http://localhost:6385"
  ironic_api_version : String := "1.82"
  deriving DecidableEq, Repr

/-- The `get_settings()` factory from `src/api/config.py` with no environment
overrides: every field takes its default. -/
def get_settings : Settings := {}

/-- The closed set of values admitted by the
`Literal["healthy", "degraded", "unhealthy"]` annotation on
`HealthStatus.status` in `src/api/schemas/health.py`. -/
def healthStatusLiterals : List String := ["healthy", "degraded", "unhealthy"]

/-- The `HealthStatus` model from `src/api/schemas/health.py`; its
field `ironic_api_version`
is `Optional[str]`, so it is an `Option String` here. -/
structure HealthStatus where
  status : String
  version : String
  timestamp : Datetime
  ironic_connected : Bool
  ironic_api_version : Option String
  deriving DecidableEq, Repr

/-- Python exceptions raised (or potentially raised) by the code under
`src/api/clients/ironic.py`. All constructors model subclasses of
`Exception`: `IronicClientError` (a `RuntimeError`), `NotImplementedError`,
and a catch-all for any other `Exception` raised inside the SDK call. -/
inductive PyExc where
  | ironicClientError (msg : String)
  | notImplementedError (msg : String)
  | otherError (msg : String)
  deriving DecidableEq, Repr

/-- The opaque OpenStack `Connection` object returned by the SDK
constructor; the program never inspects it, so it carries no data. -/
structure Connection where
  deriving DecidableEq, Repr

/-- Outcome of the external SDK call
`openstack.connection.Connection(...)` inside
`IronicClient.get_connection`: either the constructor returns a
connection object, or it raises some exception `e`. -/
inductive ConnOutcome where
  | established
  | raises (e : PyExc)
  deriving DecidableEq, Repr

namespace IronicClient

/-- Method `IronicClient.get_connection` (`src/api/clients/ironic.py`, lines
29–43): call the SDK constructor; on any `Exception` raised there,
re-raise `IronicClientError("Failed to create OpenStack connection")`. -/
def get_connection (o : ConnOutcome) : Except PyExc Connection :=
  match o with
  | ConnOutcome.established => Except.ok {}
  | ConnOutcome.raises _ =>
      Except.error (PyExc.ironicClientError "Failed to create OpenStack connection")

/-- Method `IronicClient.list_nodes` (`src/api/clients/ironic.py`, lines 45–49):
unconditionally raises `NotImplementedError`. -/
def list_nodes : Except PyExc (List Connection) :=
  Except.error (PyExc.notImplementedError "Ironic API call not implemented yet.")

/-- Method `IronicClient.get_node` (`src/api/clients/ironic.py`, lines 51–55):
unconditionally raises `NotImplementedError` for every node id. -/
def get_node (node_id : String) : Except PyExc Connection :=
  Except.error (PyExc.notImplementedError "Ironic API call not implemented yet.")

/-- Method `IronicClient.check_connectivity` (`src/api/clients/ironic.py`, lines
57–68): try `get_connection`; on success return `True`; on
`IronicClientError` return `False`; on any other `Exception` return
`False` (after logging). -/
def check_connectivity (o : ConnOutcome) : Except PyExc Bool :=
  match get_connection o with
  | Except.ok _ => Except.ok true
  | Except.error (PyExc.ironicClientError _) => Except.ok false
  | Except.error _ => Except.ok false

end IronicClient

namespace HealthService

/-- Method `HealthService.check_health` (`src/api/services/health.py`, lines
19–33): run the connectivity check (propagating any exception it would
raise), derive `status`, and assemble the `HealthStatus` record. The
wall-clock reading consumed by `datetime.now(timezone.utc)` is the
explicit input `tick`. -/
def check_health (s : Settings) (o : ConnOutcome) (tick : Nat) :
    Except PyExc HealthStatus :=
  match IronicClient.check_connectivity o with
  | Except.error e => Except.error e
  | Except.ok ironic_connected =>
      Except.ok
        { status := if ironic_connected then "healthy" else "degraded"
          version := s.app_version
          timestamp := datetimeNowUtc tick
          ironic_connected := ironic_connected
          ironic_api_version :=
            if ironic_connected then some s.ironic_api_version else none }

/-- A sequence of `check_health` calls within one process: each call
supplies a connectivity outcome and the wall-clock reading at that call.
Calls that raise produce no record (none do, as proved below). -/
def check_health_trace (s : Settings) (inputs : List (ConnOutcome × Nat)) :
    List HealthStatus :=
  inputs.filterMap (fun p => (check_health s p.1 p.2).toOption)

end HealthService

/-- Generic serialized values produced by pydantic `model_dump()`. -/
inductive PyValue where
  | str (s : String)
  | bool (b : Bool)
  | dt (d : Datetime)
  | none
  deriving DecidableEq, Repr

/-- Serialization `HealthStatus.model_dump()`: the field-by-field key/value
serialization of a health record, in declaration order of
`src/api/schemas/health.py`. -/
def model_dump (h : HealthStatus) : List (String × PyValue) :=
  [ ("status", PyValue.str h.status)
  , ("version", PyValue.str h.version)
  , ("timestamp", PyValue.dt h.timestamp)
  , ("ironic_connected", PyValue.bool h.ironic_connected)
  , ("ironic_api_version",
      match h.ironic_api_version with
      | some v => PyValue.str v
      | Option.none => PyValue.none) ]

/-- The `GET /health` handler (`src/api/routers/health.py`, lines 17–22):
it only forwards to `HealthService.check_health` and returns the record. -/
def get_health (s : Settings) (o : ConnOutcome) (tick : Nat) :
    Except PyExc HealthStatus :=
  HealthService.check_health s o tick

/-- The `check_health` MCP tool (`src/api/mcp_tools/health.py`, lines
7–13): invoke `HealthService.check_health` and return
`result.model_dump()`. -/
def mcp_check_health (s : Settings) (o : ConnOutcome) (tick : Nat) :
    Except PyExc (List (String × PyValue)) :=
  match HealthService.check_health s o tick with
  | Except.error e => Except.error e
  | Except.ok result => Except.ok (model_dump result)

/-! ### Shared evaluation lemmas -/

/-- Evaluation lemma: `check_health` never raises — whatever the outcome of the external
connection attempt, it returns exactly the record assembled from the
settings snapshot, the connectivity boolean and the clock reading. -/
lemma check_health_ok (s : Settings) (o : ConnOutcome) (tick : Nat) :
    HealthService.check_health s o tick =
      Except.ok
        { status := if o = ConnOutcome.established then "healthy" else "degraded"
          version := s.app_version
          timestamp := datetimeNowUtc tick
          ironic_connected := decide (o = ConnOutcome.established)
          ironic_api_version :=
            if o = ConnOutcome.established then some s.ironic_api_version
            else none } := by
  cases o <;>
    simp [HealthService.check_health, IronicClient.check_connectivity,
      IronicClient.get_connection]

/-- The trace of a call sequence drops nothing and records, per call, the
outcome-derived fields plus the clock reading of that call. -/
lemma check_health_trace_eq_map (s : Settings)
    (inputs : List (ConnOutcome × Nat)) :
    HealthService.check_health_trace s inputs =
      inputs.map (fun p =>
        { status := if p.1 = ConnOutcome.established then "healthy" else "degraded"
          version := s.app_version
          timestamp := datetimeNowUtc p.2
          ironic_connected := decide (p.1 = ConnOutcome.established)
          ironic_api_version :=
            if p.1 = ConnOutcome.established then some s.ironic_api_version
            else none }) := by
  induction inputs with
  | nil => rfl
  | cons p l ih =>
      simp [HealthService.check_health_trace, List.filterMap_cons,
        check_health_ok, Except.toOption] at ih ⊢
      exact ih

/-! ### Claims -/

/-- C1: for every connectivity outcome, the record returned by
`HealthService.check_health` has `status = "healthy"` iff the
connectivity checker returned `true`, and `status = "degraded"`
otherwise. -/
theorem C1_status_iff_connected (s : Settings) (o : ConnOutcome) (tick : Nat) :
    ∃ h, HealthService.check_health s o tick = Except.ok h ∧
      (h.status = "healthy" ↔ h.ironic_connected = true) ∧
      (h.status = "degraded" ↔ h.ironic_connected = false) := by
  refine ⟨_, check_health_ok s o tick, ?_, ?_⟩ <;> cases o <;> simp

/-- C1 witness: the theorem instantiated at the default settings, a
successful connection attempt and clock reading 0. -/
theorem C1_witness :
    ∃ h, HealthService.check_health get_settings ConnOutcome.established 0 =
        Except.ok h ∧
      (h.status = "healthy" ↔ h.ironic_connected = true) ∧
      (h.status = "degraded" ↔ h.ironic_connected = false) :=
  C1_status_iff_connected get_settings ConnOutcome.established 0

/-- C2: in every record returned by `HealthService.check_health`,
`ironic_api_version` is present iff `ironic_connected` is `true`, and it
is exactly the settings microversion when present (`none` otherwise). -/
theorem C2_api_version_iff_connected (s : Settings) (o : ConnOutcome) (tick : Nat) :
    ∃ h, HealthService.check_health s o tick = Except.ok h ∧
      (h.ironic_api_version.isSome = true ↔ h.ironic_connected = true) ∧
      h.ironic_api_version =
        (if h.ironic_connected then some s.ironic_api_version else none) := by
  refine ⟨_, check_health_ok s o tick, ?_, ?_⟩ <;> cases o <;> simp

/-- C2 witness: the theorem instantiated at the default settings, a
failing connection attempt and clock reading 0. -/
theorem C2_witness :
    ∃ h, HealthService.check_health get_settings
          (ConnOutcome.raises (PyExc.otherError "boom")) 0 = Except.ok h ∧
      (h.ironic_api_version.isSome = true ↔ h.ironic_connected = true) ∧
      h.ironic_api_version =
        (if h.ironic_connected then some get_settings.ironic_api_version
         else none) :=
  C2_api_version_iff_connected get_settings
    (ConnOutcome.raises (PyExc.otherError "boom")) 0

/-- C3: `HealthService.check_health` never raises — it returns a record
for every connection-attempt outcome — and every internal failure of the
connectivity checker surfaces only as `ironic_connected = false`. -/
theorem C3_check_health_never_raises (s : Settings) (tick : Nat) :
    (∀ o, ∃ h, HealthService.check_health s o tick = Except.ok h) ∧
    (∀ e, ∃ h,
      HealthService.check_health s (ConnOutcome.raises e) tick = Except.ok h ∧
        h.ironic_connected = false) := by
  refine ⟨fun o => ⟨_, check_health_ok s o tick⟩,
    fun e => ⟨_, check_health_ok s (ConnOutcome.raises e) tick, ?_⟩⟩
  simp

/-- C3 witness: the theorem instantiated at the default settings and
clock reading 3. -/
theorem C3_witness :
    (∀ o, ∃ h, HealthService.check_health get_settings o 3 = Except.ok h) ∧
    (∀ e, ∃ h,
      HealthService.check_health get_settings (ConnOutcome.raises e) 3 =
          Except.ok h ∧
        h.ironic_connected = false) :=
  C3_check_health_never_raises get_settings 3

/-- C4: `IronicClient.check_connectivity` always returns a boolean (never
propagates an exception), and the boolean is `true` iff the connection
attempt completed without raising. -/
theorem C4_check_connectivity_total (o : ConnOutcome) :
    ∃ b, IronicClient.check_connectivity o = Except.ok b ∧
      (b = true ↔ o = ConnOutcome.established) := by
  cases o <;>
    simp [IronicClient.check_connectivity, IronicClient.get_connection]

/-- C4 witness: the theorem instantiated at a connection attempt that
raises an unexpected exception. -/
theorem C4_witness :
    ∃ b, IronicClient.check_connectivity
          (ConnOutcome.raises (PyExc.otherError "socket closed")) =
        Except.ok b ∧
      (b = true ↔ ConnOutcome.raises (PyExc.otherError "socket closed") =
        ConnOutcome.established) :=
  C4_check_connectivity_total (ConnOutcome.raises (PyExc.otherError "socket closed"))

/-- C5: `IronicClient.list_nodes` and `IronicClient.get_node` both raise
`NotImplementedError`, which is a distinct condition from a connectivity
failure: it is an exception (not any returned value) and it is not an
`IronicClientError`. -/
theorem C5_stubs_raise_not_implemented (node_id : String) :
    (∃ m, IronicClient.list_nodes = Except.error (PyExc.notImplementedError m)) ∧
    (∃ m, IronicClient.get_node node_id =
      Except.error (PyExc.notImplementedError m)) ∧
    (∀ m m', PyExc.notImplementedError m ≠ PyExc.ironicClientError m') ∧
    (∀ v : List Connection, IronicClient.list_nodes ≠ Except.ok v) ∧
    (∀ v : Connection, IronicClient.get_node node_id ≠ Except.ok v) := by
  refine ⟨⟨_, rfl⟩, ⟨_, rfl⟩, fun m m' => ?_, fun v => ?_, fun v => ?_⟩ <;>
    simp [IronicClient.list_nodes, IronicClient.get_node]

/-- C5 witness: the theorem instantiated at the node id "node-0". -/
theorem C5_witness :
    (∃ m, IronicClient.list_nodes = Except.error (PyExc.notImplementedError m)) ∧
    (∃ m, IronicClient.get_node "node-0" =
      Except.error (PyExc.notImplementedError m)) ∧
    (∀ m m', PyExc.notImplementedError m ≠ PyExc.ironicClientError m') ∧
    (∀ v : List Connection, IronicClient.list_nodes ≠ Except.ok v) ∧
    (∀ v : Connection, IronicClient.get_node "node-0" ≠ Except.ok v) :=
  C5_stubs_raise_not_implemented "node-0"

/-- C6: although `"unhealthy"` belongs to the closed status enumeration
of the schema, no execution of `HealthService.check_health` produces a
record with that status (every produced status is in the enumeration and
differs from `"unhealthy"`). -/
theorem C6_unhealthy_unreachable (s : Settings) (o : ConnOutcome) (tick : Nat) :
    "unhealthy" ∈ healthStatusLiterals ∧
    ∃ h, HealthService.check_health s o tick = Except.ok h ∧
      h.status ∈ healthStatusLiterals ∧ h.status ≠ "unhealthy" := by
  refine ⟨by simp [healthStatusLiterals], _, check_health_ok s o tick, ?_, ?_⟩ <;>
    cases o <;> simp [healthStatusLiterals]

/-- C6 witness: the theorem instantiated at the default settings, a
failing connection attempt and clock reading 1. -/
theorem C6_witness :
    "unhealthy" ∈ healthStatusLiterals ∧
    ∃ h, HealthService.check_health get_settings
          (ConnOutcome.raises (PyExc.ironicClientError "down")) 1 =
        Except.ok h ∧
      h.status ∈ healthStatusLiterals ∧ h.status ≠ "unhealthy" :=
  C6_unhealthy_unreachable get_settings
    (ConnOutcome.raises (PyExc.ironicClientError "down")) 1

/-- C7: the `version` field of every record returned by
`HealthService.check_health` equals the `app_version` field of the settings, for
every connectivity outcome. -/
theorem C7_version_from_settings (s : Settings) (o : ConnOutcome) (tick : Nat) :
    ∃ h, HealthService.check_health s o tick = Except.ok h ∧
      h.version = s.app_version :=
  ⟨_, check_health_ok s o tick, rfl⟩

/-- C8 (as stated) is false: the code stamps records with
`datetime.now(timezone.utc)`, a wall-clock reading it does not constrain,
so a process whose clock steps backwards between two sequential calls
(readings 5 then 3) yields strictly decreasing timestamps. -/
theorem C8_counterexample :
    ¬ List.Chain' (fun a b => a.timestamp.tick ≤ b.timestamp.tick)
        (HealthService.check_health_trace get_settings
          [(ConnOutcome.established, 5), (ConnOutcome.established, 3)]) := by
  rw [check_health_trace_eq_map]
  simp [List.chain'_cons, datetimeNowUtc]

/-- C8 (amended): every timestamp produced by
`HealthService.check_health` is timezone-aware UTC, and across a sequence
of calls the timestamps are monotonically non-decreasing whenever the
successive wall-clock readings are non-decreasing. -/
theorem C8_amended_utc_and_monotone (s : Settings)
    (inputs : List (ConnOutcome × Nat))
    (hclock : List.Chain' (fun a b => a.2 ≤ b.2) inputs) :
    (∀ h ∈ HealthService.check_health_trace s inputs,
      h.timestamp.tzinfo = some Tzinfo.utc) ∧
    List.Chain' (fun a b => a.timestamp.tick ≤ b.timestamp.tick)
      (HealthService.check_health_trace s inputs) := by
  rw [check_health_trace_eq_map]
  constructor
  · intro h hh
    rcases List.mem_map.mp hh with ⟨p, _, rfl⟩
    rfl
  · rw [List.chain'_map]
    exact hclock.imp (fun a b hab => hab)

/-- C8 amended witness: two calls with non-decreasing clock readings 1
then 2 satisfy the hypothesis, and the conclusion holds on their trace. -/
theorem C8_amended_witness :
    List.Chain' (fun a b => a.2 ≤ b.2)
      [(ConnOutcome.established, 1), (ConnOutcome.raises (PyExc.otherError "x"), 2)] ∧
    ((∀ h ∈ HealthService.check_health_trace get_settings
          [(ConnOutcome.established, 1),
           (ConnOutcome.raises (PyExc.otherError "x"), 2)],
        h.timestamp.tzinfo = some Tzinfo.utc) ∧
      List.Chain' (fun a b => a.timestamp.tick ≤ b.timestamp.tick)
        (HealthService.check_health_trace get_settings
          [(ConnOutcome.established, 1),
           (ConnOutcome.raises (PyExc.otherError "x"), 2)])) :=
  ⟨by simp [List.chain'_cons],
    C8_amended_utc_and_monotone get_settings
      [(ConnOutcome.established, 1), (ConnOutcome.raises (PyExc.otherError "x"), 2)]
      (by simp [List.chain'_cons])⟩

/-- C9: the `GET /health` handler and the `check_health` MCP tool compute
the same record: for identical settings, connectivity outcome and clock
reading, the key/value output of the tool is exactly the field-by-field
serialization of the record the HTTP handler returns. -/
theorem C9_transports_agree (s : Settings) (o : ConnOutcome) (tick : Nat) :
    ∃ h, get_health s o tick = Except.ok h ∧
      mcp_check_health s o tick =
        Except.ok
          [ ("status", PyValue.str h.status)
          , ("version", PyValue.str h.version)
          , ("timestamp", PyValue.dt h.timestamp)
          , ("ironic_connected", PyValue.bool h.ironic_connected)
          , ("ironic_api_version",
              match h.ironic_api_version with
              | some v => PyValue.str v
              | Option.none => PyValue.none) ] := by
  refine ⟨_, check_health_ok s o tick, ?_⟩
  simp [mcp_check_health, check_health_ok, model_dump]

/-- C10: `HealthService.check_health` is deterministic in its inputs
(settings, connectivity outcome, clock reading), and the timestamp is the
only field that depends on anything beyond the settings snapshot and the
connectivity boolean: two records from the same settings that agree on
`ironic_connected` agree on every field except possibly `timestamp`. -/
theorem C10_deterministic (s : Settings) (o o' : ConnOutcome) (t t' : Nat)
    (h h' : HealthStatus)
    (e : HealthService.check_health s o t = Except.ok h)
    (e' : HealthService.check_health s o' t' = Except.ok h')
    (hc : h.ironic_connected = h'.ironic_connected) :
    h.status = h'.status ∧ h.version = h'.version ∧
    h.ironic_api_version = h'.ironic_api_version ∧
    (o = o' → t = t' → h = h') := by
  rw [check_health_ok] at e e'
  cases e; cases e'
  cases o <;> cases o' <;> simp_all

/-- C10 witness: two calls with the same settings and connectivity
outcome but different clock readings 1 and 2 agree on every field except
the timestamp. -/
theorem C10_witness :
    HealthService.check_health get_settings ConnOutcome.established 1 =
        Except.ok
          { status := "healthy", version := "0.1.0"
            timestamp := { tick := 1, tzinfo := some Tzinfo.utc }
            ironic_connected := true, ironic_api_version := some "1.82" } ∧
    HealthService.check_health get_settings ConnOutcome.established 2 =
        Except.ok
          { status := "healthy", version := "0.1.0"
            timestamp := { tick := 2, tzinfo := some Tzinfo.utc }
            ironic_connected := true, ironic_api_version := some "1.82" } ∧
    ((true : Bool) = true) ∧
    ("healthy" = "healthy" ∧ "0.1.0" = "0.1.0" ∧
      (some "1.82" : Option String) = some "1.82" ∧
      (ConnOutcome.established = ConnOutcome.established → (1 : Nat) = 2 →
        ({ status := "healthy", version := "0.1.0"
           timestamp := { tick := 1, tzinfo := some Tzinfo.utc }
           ironic_connected := true
           ironic_api_version := some "1.82" } : HealthStatus) =
          { status := "healthy", version := "0.1.0"
            timestamp := { tick := 2, tzinfo := some Tzinfo.utc }
            ironic_connected := true, ironic_api_version := some "1.82" })) :=
  ⟨rfl, rfl, rfl,
    C10_deterministic get_settings ConnOutcome.established ConnOutcome.established
      1 2 _ _ rfl rfl rfl⟩

end IronicAio
